import Mathlib

/-!
Shallow embedding of the desktop VPN plugin sources
(`src/windows/flutter_v2ray_client_desktop_plugin.cpp` and
`src/linux/flutter_v2ray_client_desktop_plugin.cc`).

Both platform files consist of a compile-time architecture switch
(`GetArchitecture`) and a method-call handler that recognises the single
method name `"geResPath"`.  The preprocessor conditionals are modelled by
an inductive `Target` enumerating the mutually exclusive architecture
classes the two `#if` chains test for; the handlers are modelled as
functions returning the list of responses they send (each call to
`result->Success` / `result->NotImplemented` / `fl_method_call_respond`
appends one response to the trace).
-/

namespace DesktopVpn

/-- Architecture class of the build target, as tested by the preprocessor
conditionals (`_M_X64`/`__x86_64__`, `_M_IX86`/`__i386__`,
`_M_ARM64`/`__aarch64__`, `_M_ARM`/`__arm__`, anything else). -/
inductive Target where
  | x64
  | x86
  | arm64
  | arm32
  | other
deriving DecidableEq, Repr

/-- Response sent on the method channel: either a success carrying a
string payload (the only payload type these handlers produce) or a
not-implemented response carrying no payload. -/
inductive MethodResponse where
  | success (payload : String)
  | notImplemented
deriving DecidableEq, Repr

namespace Windows

/-- Embedding of `GetArchitecture` from
`src/windows/flutter_v2ray_client_desktop_plugin.cpp` lines 14-26:
the `#if defined(_M_X64) / _M_IX86 / _M_ARM64 / _M_ARM / #else` chain. -/
def GetArchitecture : Target → String
  | .x64 => "64"
  | .x86 => "32"
  | .arm64 => "arm64"
  | .arm32 => "arm32"
  | .other => "unknown"

/-- Embedding of the inline path construction
`std::string resource_path = "resources/" + arch;` (line 57 of the
Windows source): working-directory-relative path derivation. -/
def resource_path (arch : String) : String :=
  "resources/" ++ arch

/-- Embedding of `FlutterV2rayClientDesktopPlugin::HandleMethodCall`
(lines 50-63): if the method name compares equal to `"geResPath"` the
handler sends one success response carrying `"resources/" + arch`,
otherwise it sends one not-implemented response.  The returned list is
the trace of responses sent. -/
def HandleMethodCall (target : Target) (method_name : String) :
    List MethodResponse :=
  if method_name = "geResPath" then
    let arch := GetArchitecture target
    [MethodResponse.success (resource_path arch)]
  else
    [MethodResponse.notImplemented]

/-- A process run on a fixed build target: each incoming call is handled
independently by `HandleMethodCall`; the handler closes over no mutable
state (the C++ lambda captures only the plugin pointer, which the handler
never reads). -/
def run (target : Target) (calls : List String) : List (List MethodResponse) :=
  calls.map (HandleMethodCall target)

end Windows

namespace Linux

/-- Embedding of `GetArchitecture` from
`src/linux/flutter_v2ray_client_desktop_plugin.cc` lines 22-34:
the `#if defined(__x86_64__) / __i386__ / __aarch64__ / __arm__ / #else`
chain. -/
def GetArchitecture : Target → String
  | .x64 => "64"
  | .x86 => "32"
  | .arm64 => "arm64"
  | .arm32 => "arm32"
  | .other => "unknown"

/-- Embedding of the inline path construction
`std::string resources_path = std::string(plugin_dir) + "/resources/" + arch;`
(line 47 of the Linux source), where `plugin_dir` is
`g_path_get_dirname(__FILE__)` — the directory containing the plugin's own
compiled location, a build-time string modelled here as a parameter. -/
def resources_path (plugin_dir arch : String) : String :=
  plugin_dir ++ "/resources/" ++ arch

/-- Embedding of `method_call_handler` (lines 37-58): if
`strcmp(method, "geResPath") == 0` the handler responds once with a
success response carrying the absolute resources path and returns;
otherwise it responds once with a not-implemented response.  The returned
list is the trace of `fl_method_call_respond` calls. -/
def method_call_handler (target : Target) (plugin_dir method : String) :
    List MethodResponse :=
  if method = "geResPath" then
    let arch := GetArchitecture target
    [MethodResponse.success (resources_path plugin_dir arch)]
  else
    [MethodResponse.notImplemented]

/-- A process run on a fixed build target and plugin directory: each
incoming call is handled independently by `method_call_handler`, which
reads no mutable state (the `user_data` plugin object is cast and then
explicitly unused). -/
def run (target : Target) (plugin_dir : String) (calls : List String) :
    List (List MethodResponse) :=
  calls.map (method_call_handler target plugin_dir)

end Linux

/-- Labels documented for the architecture resolver: the closed set
{"64", "32", "arm64", "arm32", "unknown"}. -/
def archLabels : List String := ["64", "32", "arm64", "arm32", "unknown"]

/-- Whether a path string is absolute in the POSIX sense: its first
character is the separator. -/
def isAbsolute (s : String) : Bool :=
  match s.data with
  | c :: _ => c == '/'
  | [] => false

/-- Final path segment of a string: the characters after the last
separator. -/
def lastSegment (s : String) : String :=
  ⟨(s.data.reverse.takeWhile (fun c => c != '/')).reverse⟩

/-- The string with its final segment and the separator before it
removed. -/
def dropLastSegment (s : String) : String :=
  ⟨((s.data.reverse.dropWhile (fun c => c != '/')).drop 1).reverse⟩

/-- The final two path segments of a string, in order. -/
def lastTwoSegments (s : String) : String × String :=
  (lastSegment (dropLastSegment s), lastSegment s)

end DesktopVpn

namespace DesktopVpn

/-- C1: for every supported build target, `GetArchitecture` returns
exactly the documented label — "64" for 64-bit x86, "32" for 32-bit x86,
"arm64" for 64-bit ARM, "arm32" for 32-bit ARM — and "unknown" for any
other target, on both the Windows and Linux implementations. -/
theorem getArchitecture_documented_labels :
    (Windows.GetArchitecture .x64 = "64"
      ∧ Windows.GetArchitecture .x86 = "32"
      ∧ Windows.GetArchitecture .arm64 = "arm64"
      ∧ Windows.GetArchitecture .arm32 = "arm32"
      ∧ Windows.GetArchitecture .other = "unknown")
  ∧ (Linux.GetArchitecture .x64 = "64"
      ∧ Linux.GetArchitecture .x86 = "32"
      ∧ Linux.GetArchitecture .arm64 = "arm64"
      ∧ Linux.GetArchitecture .arm32 = "arm32"
      ∧ Linux.GetArchitecture .other = "unknown") := by
  decide

/-- C2: on every build target (and, on Linux, every plugin directory),
invoking the method named "geResPath" sends exactly one success response
whose payload is the platform's resolved resources path derived from
`GetArchitecture` per the platform's path policy. -/
theorem geResPath_returns_resolved_path (t : Target) (dir : String) :
    Windows.HandleMethodCall t "geResPath"
        = [MethodResponse.success (Windows.resource_path (Windows.GetArchitecture t))]
  ∧ Linux.method_call_handler t dir "geResPath"
        = [MethodResponse.success (Linux.resources_path dir (Linux.GetArchitecture t))] :=
  ⟨rfl, rfl⟩

/-- C3: any method name other than "geResPath" yields exactly one
not-implemented response (which carries no payload), and a success
response occurs if and only if the method name equals "geResPath", on
both platforms. -/
theorem unrecognized_method_not_implemented (t : Target) (dir m : String)
    (h : m ≠ "geResPath") :
    Windows.HandleMethodCall t m = [MethodResponse.notImplemented]
  ∧ Linux.method_call_handler t dir m = [MethodResponse.notImplemented]
  ∧ (∀ m' : String,
      (∃ p, MethodResponse.success p ∈ Windows.HandleMethodCall t m') ↔ m' = "geResPath")
  ∧ (∀ m' : String,
      (∃ p, MethodResponse.success p ∈ Linux.method_call_handler t dir m') ↔ m' = "geResPath") := by
  refine ⟨?_, ?_, ?_, ?_⟩
  · simp [Windows.HandleMethodCall, h]
  · simp [Linux.method_call_handler, h]
  · intro m'
    unfold Windows.HandleMethodCall
    split <;> simp_all
  · intro m'
    unfold Linux.method_call_handler
    split <;> simp_all

/-- Witness for C3 at the concrete method name "foo". -/
theorem unrecognized_method_not_implemented_witness :
    ("foo" : String) ≠ "geResPath"
  ∧ Windows.HandleMethodCall .x64 "foo" = [MethodResponse.notImplemented]
  ∧ Linux.method_call_handler .x64 "/opt/plugin" "foo" = [MethodResponse.notImplemented] := by
  have h : ("foo" : String) ≠ "geResPath" := by decide
  have k := unrecognized_method_not_implemented .x64 "/opt/plugin" "foo" h
  exact ⟨h, k.1, k.2.1⟩

/-- C4: under the working-directory-relative policy of the Windows
implementation, the resources path for each label in
{"64", "32", "arm64", "arm32", "unknown"} is exactly "resources/"
concatenated with the label. -/
theorem windows_resource_path_concat :
    Windows.resource_path "64" = "resources/64"
  ∧ Windows.resource_path "32" = "resources/32"
  ∧ Windows.resource_path "arm64" = "resources/arm64"
  ∧ Windows.resource_path "arm32" = "resources/arm32"
  ∧ Windows.resource_path "unknown" = "resources/unknown" := by
  decide

/-- C5: under the Linux absolute-path policy (the path is anchored to the
directory containing the plugin's own compiled location), whenever that
anchor directory is absolute the returned path is absolute, and its final
two segments are "resources" followed by the architecture label. -/
theorem linux_resources_path_absolute_and_segments (dir : String) (t : Target)
    (h : isAbsolute dir = true) :
    isAbsolute (Linux.resources_path dir (Linux.GetArchitecture t)) = true
  ∧ lastTwoSegments (Linux.resources_path dir (Linux.GetArchitecture t))
      = ("resources", Linux.GetArchitecture t) := by
  constructor
  · obtain ⟨d⟩ := dir
    match d, h with
    | c :: rest, h =>
      cases t <;> simp_all [isAbsolute, Linux.resources_path, String.data_append]
  · obtain ⟨d⟩ := dir
    cases t <;>
      simp [lastTwoSegments, lastSegment, dropLastSegment, Linux.resources_path,
        Linux.GetArchitecture, String.data_append, List.reverse_append,
        List.takeWhile, List.dropWhile]

/-- Witness for C5 at the concrete plugin directory "/opt/plugin" on the
64-bit x86 target. -/
theorem linux_resources_path_absolute_and_segments_witness :
    isAbsolute "/opt/plugin" = true
  ∧ (isAbsolute (Linux.resources_path "/opt/plugin" (Linux.GetArchitecture .x64)) = true
      ∧ lastTwoSegments (Linux.resources_path "/opt/plugin" (Linux.GetArchitecture .x64))
          = ("resources", Linux.GetArchitecture .x64)) :=
  ⟨by decide, linux_resources_path_absolute_and_segments "/opt/plugin" .x64 (by decide)⟩

/-- C6: the architecture classification is total — every build target,
including unrecognized ones, yields a label in the documented set, with
"unknown" as the fallback — and path derivation cannot fail: on every
target the "geResPath" flow produces a success response carrying a path. -/
theorem getArchitecture_total_no_error :
    (∀ t : Target, Windows.GetArchitecture t ∈ archLabels
        ∧ Linux.GetArchitecture t ∈ archLabels)
  ∧ Windows.GetArchitecture Target.other = "unknown"
  ∧ Linux.GetArchitecture Target.other = "unknown"
  ∧ (∀ (t : Target) (dir : String),
      (∃ p, Windows.HandleMethodCall t "geResPath" = [MethodResponse.success p])
        ∧ (∃ q, Linux.method_call_handler t dir "geResPath" = [MethodResponse.success q])) := by
  refine ⟨fun t => ?_, rfl, rfl, fun t dir => ⟨⟨_, rfl⟩, ⟨_, rfl⟩⟩⟩
  cases t <;> decide

/-- C7: the resolver is deterministic and idempotent — within a fixed
build target (and plugin directory), the response to any method call is
independent of the prior call history, so two runs ending in the same
call produce identical final responses, equal to a single fresh
invocation of the handler. -/
theorem handler_deterministic_idempotent (t : Target) (dir : String)
    (pre₁ pre₂ : List String) (m : String) :
    (Windows.run t (pre₁ ++ [m])).getLast? = (Windows.run t (pre₂ ++ [m])).getLast?
  ∧ (Windows.run t (pre₁ ++ [m])).getLast? = some (Windows.HandleMethodCall t m)
  ∧ (Linux.run t dir (pre₁ ++ [m])).getLast? = (Linux.run t dir (pre₂ ++ [m])).getLast?
  ∧ (Linux.run t dir (pre₁ ++ [m])).getLast? = some (Linux.method_call_handler t dir m) := by
  refine ⟨?_, ?_, ?_, ?_⟩ <;>
    simp [Windows.run, Linux.run, List.getLast?_concat]

/-- C8: the value returned by `GetArchitecture` always lies in the closed
set {"64", "32", "arm64", "arm32", "unknown"}, on every build target and
on both platforms. -/
theorem getArchitecture_closed_set (t : Target) :
    Windows.GetArchitecture t ∈ archLabels
  ∧ Linux.GetArchitecture t ∈ archLabels := by
  cases t <;> decide

/-- C9: for every incoming method call, on any build target, the handler
sends exactly one response — both the "geResPath" branch and the
unrecognized-name fallback respond exactly once. -/
theorem handler_responds_exactly_once (t : Target) (dir m : String) :
    (Windows.HandleMethodCall t m).length = 1
  ∧ (Linux.method_call_handler t dir m).length = 1 := by
  constructor
  · unfold Windows.HandleMethodCall
    split <;> rfl
  · unfold Linux.method_call_handler
    split <;> rfl

/-- C10: the Windows and Linux `GetArchitecture` implementations compute
the same classification function — for every architecture class the two
embeddings return equal label strings. -/
theorem getArchitecture_cross_platform_equal (t : Target) :
    Windows.GetArchitecture t = Linux.GetArchitecture t := by
  cases t <;> rfl

end DesktopVpn
